import Mathlib

/-!
Shallow embedding of the fraud-detection / analytics engine in
`backend/analytics.py` (classes `FraudDetectionEngine` and `AnalyticsEngine`)
together with the record shapes of `backend/models.py`.

Conventions of the embedding:
* Python floats are modelled as rationals (`ℚ`); all arithmetic in the engine
  is exact on the inputs we consider, so no floating-point subtlety is lost.
* Timestamps (`datetime`) are modelled as integers counting seconds.
* Database collections are modelled as Lean lists of records; a Mongo
  `$group` keyed on a field is modelled as iteration over the deduplicated
  key list (order of first appearance), which matches grouping semantics
  up to group order.
* Python code that can raise (`sum(xs)/len(xs)` with an empty list) is
  modelled with `Option`: `none` is the exception.
-/

namespace Analytics

/-- `models.py` `OrderStatus`. -/
inductive OrderStatus where
  | pending | confirmed | shipped | delivered | cancelled
deriving DecidableEq, Repr

/-- `models.py` `ReturnReason`. -/
inductive ReturnReason where
  | defective | size_issue | not_as_described | changed_mind
  | late_delivery | damaged_shipping | duplicate_order
deriving DecidableEq, Repr

/-- `models.py` `RiskLevel`. -/
inductive RiskLevel where
  | low | medium | high | critical
deriving DecidableEq, Repr

/-- `models.py` `OrderItem` (the fields the engine reads). -/
structure OrderItem where
  product_id : String
deriving DecidableEq, Repr

/-- `models.py` `Order`, restricted to the fields `analytics.py` reads.
`updated_at` is not declared on the pydantic model; `analytics.py` reads it
with `order.get('updated_at', order['order_date'])`, i.e. it may be absent,
hence `Option`. -/
structure Order where
  id : String
  customer_id : String
  customer_email : String
  items : List OrderItem
  total_amount : ℚ
  order_date : ℤ
  updated_at : Option ℤ
  status : OrderStatus
  shipping_address : String
deriving DecidableEq, Repr

/-- `models.py` `Return`, restricted to the fields `analytics.py` reads. -/
structure Ret where
  id : String
  order_id : String
  customer_id : String
  customer_email : String
  product_id : String
  product_name : String
  reason : ReturnReason
  return_date : ℤ
  refund_amount : ℚ
  is_fraud_suspected : Bool
deriving DecidableEq, Repr

/-! ### Thresholds (`FraudDetectionEngine.__init__`) -/

def RETURN_RATE_THRESHOLD : ℚ := 3 / 10
def HIGH_VALUE_RETURN_THRESHOLD : ℚ := 500
def FREQUENT_RETURNER_THRESHOLD : ℕ := 5
def RAPID_RETURN_HOURS : ℤ := 24
def SUSPICIOUS_REASON_PATTERNS : List ReturnReason :=
  [.changed_mind, .not_as_described]

/-! ### Customer signal bundle (`_get_customer_analytics_data`) -/

/-- The dictionary returned by `_get_customer_analytics_data` (the fields
`calculate_fraud_score` reads). -/
structure CustomerData where
  total_orders : ℕ
  total_returns : ℕ
  return_rate : ℚ
  recent_returns_30d : ℕ
  avg_return_value : ℚ
  rapid_returns : ℕ
  suspicious_reason_count : ℕ
deriving DecidableEq, Repr

def secondsPerHour : ℤ := 3600
def secondsPerDay : ℤ := 86400

/-- `delivery_date = order.get('updated_at', order['order_date'])`. -/
def deliveryDate (o : Order) : ℤ := o.updated_at.getD o.order_date

/-- The body of the rapid-return loop of `_get_customer_analytics_data`:
a return counts if the first order matching its `order_id` exists, has
status `delivered`, and `return_date <= delivery_date + 24 hours`. -/
def isRapid (orders : List Order) (r : Ret) : Bool :=
  match orders.find? (fun o => o.id == r.order_id) with
  | some o =>
      o.status == OrderStatus.delivered &&
        decide (r.return_date ≤ deliveryDate o + RAPID_RETURN_HOURS * secondsPerHour)
  | none => false

/-- `_get_customer_analytics_data(customer_id)`, applied to the customer's
fetched orders and returns (the Mongo `find` on `customer_id` is the
collaborator; its result lists are the arguments here).  `now` stands for
`datetime.utcnow()`.  Zero orders yield the empty dict, i.e. `none`. -/
def getCustomerAnalyticsData (now : ℤ) (orders : List Order) (rets : List Ret) :
    Option CustomerData :=
  if orders.isEmpty then none
  else
    let total_orders := orders.length
    let total_returns := rets.length
    some
      { total_orders := total_orders
        total_returns := total_returns
        return_rate :=
          if 0 < total_orders then (total_returns : ℚ) / total_orders else 0
        recent_returns_30d :=
          rets.countP (fun r => decide (now - 30 * secondsPerDay ≤ r.return_date))
        avg_return_value :=
          if rets.isEmpty then 0
          else (rets.map (fun r => r.refund_amount)).sum / rets.length
        rapid_returns := rets.countP (isRapid orders)
        suspicious_reason_count :=
          (SUSPICIOUS_REASON_PATTERNS.map
            (fun reason => rets.countP (fun r => r.reason == reason))).sum }

/-! ### Fraud scoring (`calculate_fraud_score`) -/

/-- Factor 1, return-rate analysis (0-30 points). -/
def rateContribution (d : CustomerData) : ℚ :=
  if RETURN_RATE_THRESHOLD < d.return_rate then min 30 (d.return_rate * 100) else 0

/-- Factor 2, return frequency (0-25 points). -/
def freqContribution (d : CustomerData) : ℚ :=
  if FREQUENT_RETURNER_THRESHOLD < d.recent_returns_30d
  then min 25 ((d.recent_returns_30d : ℚ) * 4) else 0

/-- Factor 3, return-value patterns (0-20 points). -/
def valueContribution (d : CustomerData) : ℚ :=
  if HIGH_VALUE_RETURN_THRESHOLD < d.avg_return_value
  then min 20 ((d.avg_return_value / HIGH_VALUE_RETURN_THRESHOLD) * 10) else 0

/-- Factor 4, rapid returns (0-15 points). -/
def rapidContribution (d : CustomerData) : ℚ :=
  if 0 < d.rapid_returns then min 15 ((d.rapid_returns : ℚ) * 7) else 0

/-- Factor 5, suspicious reason patterns (0-10 points). -/
def reasonContribution (d : CustomerData) : ℚ :=
  if 2 < d.suspicious_reason_count
  then min 10 ((d.suspicious_reason_count : ℚ) * 2) else 0

/-- The accumulated `score` variable just before the risk-level branch. -/
def rawScore (d : CustomerData) : ℚ :=
  rateContribution d + freqContribution d + valueContribution d +
    rapidContribution d + reasonContribution d

/-- The `indicators` list accumulated alongside the score (each triggered
factor appends exactly one string; the Python f-string value interpolation
is elided, which no claim depends on). -/
def indicatorList (d : CustomerData) : List String :=
  (if RETURN_RATE_THRESHOLD < d.return_rate then ["High return rate"] else []) ++
  (if FREQUENT_RETURNER_THRESHOLD < d.recent_returns_30d
   then ["Frequent returner"] else []) ++
  (if HIGH_VALUE_RETURN_THRESHOLD < d.avg_return_value
   then ["High-value returns"] else []) ++
  (if 0 < d.rapid_returns then ["Rapid returns"] else []) ++
  (if 2 < d.suspicious_reason_count then ["Suspicious return reasons"] else [])

/-- The risk-level branch of `calculate_fraud_score` (applied, as in the
source, to the unclamped score). -/
def riskLevelOf (score : ℚ) : RiskLevel :=
  if 70 ≤ score then RiskLevel.critical
  else if 50 ≤ score then RiskLevel.high
  else if 25 ≤ score then RiskLevel.medium
  else RiskLevel.low

/-- `calculate_fraud_score`, as a function of the (optional) signal bundle
produced by `_get_customer_analytics_data`. -/
def calculate_fraud_score (data : Option CustomerData) :
    ℚ × List String × RiskLevel :=
  match data with
  | none => (0, [], RiskLevel.low)
  | some d => (min 100 (rawScore d), indicatorList d, riskLevelOf (rawScore d))

/-! ### Bounds on the five factor contributions -/

lemma rateContribution_eq_of_lt (d : CustomerData)
    (h : RETURN_RATE_THRESHOLD < d.return_rate) : rateContribution d = 30 := by
  rw [rateContribution, if_pos h, min_eq_left]
  rw [RETURN_RATE_THRESHOLD] at h
  linarith

lemma rateContribution_nonneg (d : CustomerData) : 0 ≤ rateContribution d := by
  by_cases h : RETURN_RATE_THRESHOLD < d.return_rate
  · rw [rateContribution_eq_of_lt d h]; norm_num
  · rw [rateContribution, if_neg h]

lemma rateContribution_le (d : CustomerData) : rateContribution d ≤ 30 := by
  rw [rateContribution]
  split
  · exact min_le_left _ _
  · norm_num

lemma freqContribution_ge (d : CustomerData)
    (h : FREQUENT_RETURNER_THRESHOLD < d.recent_returns_30d) :
    24 ≤ freqContribution d := by
  rw [freqContribution, if_pos h]
  refine le_min (by norm_num) ?_
  rw [FREQUENT_RETURNER_THRESHOLD] at h
  have h6 : (6 : ℚ) ≤ (d.recent_returns_30d : ℚ) := by exact_mod_cast h
  linarith

lemma freqContribution_nonneg (d : CustomerData) : 0 ≤ freqContribution d := by
  by_cases h : FREQUENT_RETURNER_THRESHOLD < d.recent_returns_30d
  · have := freqContribution_ge d h; linarith
  · rw [freqContribution, if_neg h]

lemma freqContribution_le (d : CustomerData) : freqContribution d ≤ 25 := by
  rw [freqContribution]
  split
  · exact min_le_left _ _
  · norm_num

lemma valueContribution_gt (d : CustomerData)
    (h : HIGH_VALUE_RETURN_THRESHOLD < d.avg_return_value) :
    10 < valueContribution d := by
  rw [valueContribution, if_pos h]
  refine lt_min (by norm_num) ?_
  rw [HIGH_VALUE_RETURN_THRESHOLD] at h ⊢
  rw [div_mul_eq_mul_div, lt_div_iff₀ (by norm_num : (0:ℚ) < 500)]
  linarith

lemma valueContribution_nonneg (d : CustomerData) : 0 ≤ valueContribution d := by
  by_cases h : HIGH_VALUE_RETURN_THRESHOLD < d.avg_return_value
  · have := valueContribution_gt d h; linarith
  · rw [valueContribution, if_neg h]

lemma valueContribution_le (d : CustomerData) : valueContribution d ≤ 20 := by
  rw [valueContribution]
  split
  · exact min_le_left _ _
  · norm_num

lemma rapidContribution_ge (d : CustomerData) (h : 0 < d.rapid_returns) :
    7 ≤ rapidContribution d := by
  rw [rapidContribution, if_pos h]
  refine le_min (by norm_num) ?_
  have h1 : (1 : ℚ) ≤ (d.rapid_returns : ℚ) := by exact_mod_cast h
  linarith

lemma rapidContribution_nonneg (d : CustomerData) : 0 ≤ rapidContribution d := by
  by_cases h : 0 < d.rapid_returns
  · have := rapidContribution_ge d h; linarith
  · rw [rapidContribution, if_neg h]

lemma rapidContribution_le (d : CustomerData) : rapidContribution d ≤ 15 := by
  rw [rapidContribution]
  split
  · exact min_le_left _ _
  · norm_num

lemma reasonContribution_ge (d : CustomerData) (h : 2 < d.suspicious_reason_count) :
    6 ≤ reasonContribution d := by
  rw [reasonContribution, if_pos h]
  refine le_min (by norm_num) ?_
  have h3 : (3 : ℚ) ≤ (d.suspicious_reason_count : ℚ) := by exact_mod_cast h
  linarith

lemma reasonContribution_nonneg (d : CustomerData) : 0 ≤ reasonContribution d := by
  by_cases h : 2 < d.suspicious_reason_count
  · have := reasonContribution_ge d h; linarith
  · rw [reasonContribution, if_neg h]

lemma reasonContribution_le (d : CustomerData) : reasonContribution d ≤ 10 := by
  rw [reasonContribution]
  split
  · exact min_le_left _ _
  · norm_num

lemma rawScore_nonneg (d : CustomerData) : 0 ≤ rawScore d := by
  have h1 := rateContribution_nonneg d
  have h2 := freqContribution_nonneg d
  have h3 := valueContribution_nonneg d
  have h4 := rapidContribution_nonneg d
  have h5 := reasonContribution_nonneg d
  rw [rawScore]; linarith

lemma rawScore_le_100 (d : CustomerData) : rawScore d ≤ 100 := by
  have h1 := rateContribution_le d
  have h2 := freqContribution_le d
  have h3 := valueContribution_le d
  have h4 := rapidContribution_le d
  have h5 := reasonContribution_le d
  rw [rawScore]; linarith

/-- C1: the returned score lies in [0, 100] for every signal bundle with
non-negative fields; this holds without the clamp being needed, because the
five caps sum to exactly 100. -/
theorem fraud_score_in_range (d : CustomerData)
    (_h1 : 0 ≤ d.return_rate) (_h2 : 0 ≤ d.avg_return_value) :
    0 ≤ (calculate_fraud_score (some d)).1 ∧
      (calculate_fraud_score (some d)).1 ≤ 100 := by
  constructor
  · exact le_min (by norm_num) (rawScore_nonneg d)
  · exact min_le_left _ _

/-- C1 witness: a bundle saturating all five factor caps
(rate 1.0, 7 recent returns, avg value 1000, 3 rapid, 5 suspicious)
stays in [0, 100] (in fact it scores exactly 100). -/
theorem fraud_score_in_range_witness :
    (0 ≤ (calculate_fraud_score (some ⟨10, 10, 1, 7, 1000, 3, 5⟩)).1 ∧
      (calculate_fraud_score (some ⟨10, 10, 1, 7, 1000, 3, 5⟩)).1 ≤ 100) ∧
    (calculate_fraud_score (some ⟨10, 10, 1, 7, 1000, 3, 5⟩)).1 = 100 :=
  ⟨fraud_score_in_range ⟨10, 10, 1, 7, 1000, 3, 5⟩ (by norm_num) (by norm_num),
   by norm_num [calculate_fraud_score, rawScore, rateContribution,
     freqContribution, valueContribution, rapidContribution,
     reasonContribution, RETURN_RATE_THRESHOLD, FREQUENT_RETURNER_THRESHOLD,
     HIGH_VALUE_RETURN_THRESHOLD, min_def]⟩

/-- C2: a customer with zero orders yields the empty signal bundle, and
`calculate_fraud_score` maps it to score 0, no indicators, LOW risk —
a normal return value, not an error. -/
theorem zero_orders_low_risk (now : ℤ) (rets : List Ret) :
    getCustomerAnalyticsData now [] rets = none ∧
      calculate_fraud_score (getCustomerAnalyticsData now [] rets) =
        (0, [], RiskLevel.low) := by
  have h : getCustomerAnalyticsData now [] rets = none := by
    rw [getCustomerAnalyticsData]; rfl
  exact ⟨h, by rw [h]; rfl⟩

/-- C3: the risk band is determined from the score by exact fixed
thresholds, highest band winning (≥70 CRITICAL, 50 ≤ s < 70 HIGH,
25 ≤ s < 50 MEDIUM, s < 25 LOW), and the returned band agrees with the
band of the returned (clamped) score. -/
theorem risk_band_thresholds :
    (∀ s : ℚ, 70 ≤ s → riskLevelOf s = RiskLevel.critical) ∧
    (∀ s : ℚ, 50 ≤ s → s < 70 → riskLevelOf s = RiskLevel.high) ∧
    (∀ s : ℚ, 25 ≤ s → s < 50 → riskLevelOf s = RiskLevel.medium) ∧
    (∀ s : ℚ, s < 25 → riskLevelOf s = RiskLevel.low) ∧
    (∀ d : CustomerData,
      (calculate_fraud_score (some d)).2.2 =
        riskLevelOf ((calculate_fraud_score (some d)).1)) := by
  refine ⟨?_, ?_, ?_, ?_, ?_⟩
  · intro s h
    rw [riskLevelOf, if_pos h]
  · intro s h50 h70
    rw [riskLevelOf, if_neg (not_le.mpr h70), if_pos h50]
  · intro s h25 h50
    rw [riskLevelOf, if_neg (not_le.mpr (by linarith)),
      if_neg (not_le.mpr h50), if_pos h25]
  · intro s h25
    rw [riskLevelOf, if_neg (not_le.mpr (by linarith)),
      if_neg (not_le.mpr (by linarith)), if_neg (not_le.mpr h25)]
  · intro d
    show riskLevelOf (rawScore d) = riskLevelOf (min 100 (rawScore d))
    rw [min_eq_right (rawScore_le_100 d)]

/-- C3 witness: the four boundary scores of the claim — 70.0 is CRITICAL,
69.999 is HIGH, 50.0 is HIGH, 24.999 is LOW. -/
theorem risk_band_thresholds_witness :
    riskLevelOf 70 = RiskLevel.critical ∧
    riskLevelOf (69999 / 1000) = RiskLevel.high ∧
    riskLevelOf 50 = RiskLevel.high ∧
    riskLevelOf (24999 / 1000) = RiskLevel.low :=
  ⟨risk_band_thresholds.1 70 (by norm_num),
   risk_band_thresholds.2.1 (69999 / 1000) (by norm_num) (by norm_num),
   risk_band_thresholds.2.1 50 (by norm_num) (by norm_num),
   risk_band_thresholds.2.2.2.1 (24999 / 1000) (by norm_num)⟩

/-! ### Monotonicity of the five contributions in their own signal -/

lemma rateContribution_mono (d : CustomerData) (x y : ℚ) (h : x ≤ y) :
    rateContribution { d with return_rate := x } ≤
      rateContribution { d with return_rate := y } := by
  by_cases hx : RETURN_RATE_THRESHOLD < x
  · rw [rateContribution_eq_of_lt _ hx, rateContribution_eq_of_lt _ (lt_of_lt_of_le hx h)]
  · have hz : rateContribution { d with return_rate := x } = 0 := if_neg hx
    rw [hz]
    exact rateContribution_nonneg _

lemma freqContribution_mono (d : CustomerData) (n m : ℕ) (h : n ≤ m) :
    freqContribution { d with recent_returns_30d := n } ≤
      freqContribution { d with recent_returns_30d := m } := by
  by_cases hn : FREQUENT_RETURNER_THRESHOLD < n
  · have hm : FREQUENT_RETURNER_THRESHOLD < m := lt_of_lt_of_le hn h
    show (if FREQUENT_RETURNER_THRESHOLD < n then min 25 ((n : ℚ) * 4) else 0) ≤
      (if FREQUENT_RETURNER_THRESHOLD < m then min 25 ((m : ℚ) * 4) else 0)
    rw [if_pos hn, if_pos hm]
    have hq : (n : ℚ) ≤ (m : ℚ) := by exact_mod_cast h
    exact min_le_min le_rfl (by linarith)
  · have hz : freqContribution { d with recent_returns_30d := n } = 0 := if_neg hn
    rw [hz]
    exact freqContribution_nonneg _

lemma valueContribution_mono (d : CustomerData) (x y : ℚ) (h : x ≤ y) :
    valueContribution { d with avg_return_value := x } ≤
      valueContribution { d with avg_return_value := y } := by
  by_cases hx : HIGH_VALUE_RETURN_THRESHOLD < x
  · have hy : HIGH_VALUE_RETURN_THRESHOLD < y := lt_of_lt_of_le hx h
    show (if HIGH_VALUE_RETURN_THRESHOLD < x
        then min 20 ((x / HIGH_VALUE_RETURN_THRESHOLD) * 10) else 0) ≤
      (if HIGH_VALUE_RETURN_THRESHOLD < y
        then min 20 ((y / HIGH_VALUE_RETURN_THRESHOLD) * 10) else 0)
    rw [if_pos hx, if_pos hy]
    refine min_le_min le_rfl ?_
    rw [HIGH_VALUE_RETURN_THRESHOLD]
    linarith
  · have hz : valueContribution { d with avg_return_value := x } = 0 := if_neg hx
    rw [hz]
    exact valueContribution_nonneg _

lemma rapidContribution_mono (d : CustomerData) (n m : ℕ) (h : n ≤ m) :
    rapidContribution { d with rapid_returns := n } ≤
      rapidContribution { d with rapid_returns := m } := by
  by_cases hn : 0 < n
  · have hm : 0 < m := lt_of_lt_of_le hn h
    show (if 0 < n then min 15 ((n : ℚ) * 7) else 0) ≤
      (if 0 < m then min 15 ((m : ℚ) * 7) else 0)
    rw [if_pos hn, if_pos hm]
    have hq : (n : ℚ) ≤ (m : ℚ) := by exact_mod_cast h
    exact min_le_min le_rfl (by linarith)
  · have hz : rapidContribution { d with rapid_returns := n } = 0 := if_neg hn
    rw [hz]
    exact rapidContribution_nonneg _

lemma reasonContribution_mono (d : CustomerData) (n m : ℕ) (h : n ≤ m) :
    reasonContribution { d with suspicious_reason_count := n } ≤
      reasonContribution { d with suspicious_reason_count := m } := by
  by_cases hn : 2 < n
  · have hm : 2 < m := lt_of_lt_of_le hn h
    show (if 2 < n then min 10 ((n : ℚ) * 2) else 0) ≤
      (if 2 < m then min 10 ((m : ℚ) * 2) else 0)
    rw [if_pos hn, if_pos hm]
    have hq : (n : ℚ) ≤ (m : ℚ) := by exact_mod_cast h
    exact min_le_min le_rfl (by linarith)
  · have hz : reasonContribution { d with suspicious_reason_count := n } = 0 := if_neg hn
    rw [hz]
    exact reasonContribution_nonneg _

/-- C4: the returned fraud score is monotonically non-decreasing in each of
the five signals, the other four held fixed. -/
theorem fraud_score_monotone :
    (∀ (d : CustomerData) (x y : ℚ), x ≤ y →
      (calculate_fraud_score (some { d with return_rate := x })).1 ≤
        (calculate_fraud_score (some { d with return_rate := y })).1) ∧
    (∀ (d : CustomerData) (n m : ℕ), n ≤ m →
      (calculate_fraud_score (some { d with recent_returns_30d := n })).1 ≤
        (calculate_fraud_score (some { d with recent_returns_30d := m })).1) ∧
    (∀ (d : CustomerData) (x y : ℚ), x ≤ y →
      (calculate_fraud_score (some { d with avg_return_value := x })).1 ≤
        (calculate_fraud_score (some { d with avg_return_value := y })).1) ∧
    (∀ (d : CustomerData) (n m : ℕ), n ≤ m →
      (calculate_fraud_score (some { d with rapid_returns := n })).1 ≤
        (calculate_fraud_score (some { d with rapid_returns := m })).1) ∧
    (∀ (d : CustomerData) (n m : ℕ), n ≤ m →
      (calculate_fraud_score (some { d with suspicious_reason_count := n })).1 ≤
        (calculate_fraud_score (some { d with suspicious_reason_count := m })).1) := by
  refine ⟨?_, ?_, ?_, ?_, ?_⟩
  · intro d x y h
    refine min_le_min le_rfl ?_
    have h1 := rateContribution_mono d x y h
    have e2 : freqContribution { d with return_rate := x } =
      freqContribution { d with return_rate := y } := rfl
    have e3 : valueContribution { d with return_rate := x } =
      valueContribution { d with return_rate := y } := rfl
    have e4 : rapidContribution { d with return_rate := x } =
      rapidContribution { d with return_rate := y } := rfl
    have e5 : reasonContribution { d with return_rate := x } =
      reasonContribution { d with return_rate := y } := rfl
    rw [rawScore, rawScore]
    linarith
  · intro d n m h
    refine min_le_min le_rfl ?_
    have h2 := freqContribution_mono d n m h
    have e1 : rateContribution { d with recent_returns_30d := n } =
      rateContribution { d with recent_returns_30d := m } := rfl
    have e3 : valueContribution { d with recent_returns_30d := n } =
      valueContribution { d with recent_returns_30d := m } := rfl
    have e4 : rapidContribution { d with recent_returns_30d := n } =
      rapidContribution { d with recent_returns_30d := m } := rfl
    have e5 : reasonContribution { d with recent_returns_30d := n } =
      reasonContribution { d with recent_returns_30d := m } := rfl
    rw [rawScore, rawScore]
    linarith
  · intro d x y h
    refine min_le_min le_rfl ?_
    have h3 := valueContribution_mono d x y h
    have e1 : rateContribution { d with avg_return_value := x } =
      rateContribution { d with avg_return_value := y } := rfl
    have e2 : freqContribution { d with avg_return_value := x } =
      freqContribution { d with avg_return_value := y } := rfl
    have e4 : rapidContribution { d with avg_return_value := x } =
      rapidContribution { d with avg_return_value := y } := rfl
    have e5 : reasonContribution { d with avg_return_value := x } =
      reasonContribution { d with avg_return_value := y } := rfl
    rw [rawScore, rawScore]
    linarith
  · intro d n m h
    refine min_le_min le_rfl ?_
    have h4 := rapidContribution_mono d n m h
    have e1 : rateContribution { d with rapid_returns := n } =
      rateContribution { d with rapid_returns := m } := rfl
    have e2 : freqContribution { d with rapid_returns := n } =
      freqContribution { d with rapid_returns := m } := rfl
    have e3 : valueContribution { d with rapid_returns := n } =
      valueContribution { d with rapid_returns := m } := rfl
    have e5 : reasonContribution { d with rapid_returns := n } =
      reasonContribution { d with rapid_returns := m } := rfl
    rw [rawScore, rawScore]
    linarith
  · intro d n m h
    refine min_le_min le_rfl ?_
    have h5 := reasonContribution_mono d n m h
    have e1 : rateContribution { d with suspicious_reason_count := n } =
      rateContribution { d with suspicious_reason_count := m } := rfl
    have e2 : freqContribution { d with suspicious_reason_count := n } =
      freqContribution { d with suspicious_reason_count := m } := rfl
    have e3 : valueContribution { d with suspicious_reason_count := n } =
      valueContribution { d with suspicious_reason_count := m } := rfl
    have e4 : rapidContribution { d with suspicious_reason_count := n } =
      rapidContribution { d with suspicious_reason_count := m } := rfl
    rw [rawScore, rawScore]
    linarith

/-- C4 witness: one concrete increase in each of the five signals, holding
the others fixed, never lowers the score. -/
theorem fraud_score_monotone_witness :
    ((calculate_fraud_score (some ⟨1, 0, 0, 0, 0, 0, 0⟩)).1 ≤
      (calculate_fraud_score (some ⟨1, 0, 1, 0, 0, 0, 0⟩)).1) ∧
    ((calculate_fraud_score (some ⟨1, 0, 0, 0, 0, 0, 0⟩)).1 ≤
      (calculate_fraud_score (some ⟨1, 0, 0, 6, 0, 0, 0⟩)).1) ∧
    ((calculate_fraud_score (some ⟨1, 0, 0, 0, 0, 0, 0⟩)).1 ≤
      (calculate_fraud_score (some ⟨1, 0, 0, 0, 600, 0, 0⟩)).1) ∧
    ((calculate_fraud_score (some ⟨1, 0, 0, 0, 0, 0, 0⟩)).1 ≤
      (calculate_fraud_score (some ⟨1, 0, 0, 0, 0, 2, 0⟩)).1) ∧
    ((calculate_fraud_score (some ⟨1, 0, 0, 0, 0, 0, 0⟩)).1 ≤
      (calculate_fraud_score (some ⟨1, 0, 0, 0, 0, 0, 3⟩)).1) :=
  ⟨fraud_score_monotone.1 ⟨1, 0, 0, 0, 0, 0, 0⟩ 0 1 (by norm_num),
   fraud_score_monotone.2.1 ⟨1, 0, 0, 0, 0, 0, 0⟩ 0 6 (by norm_num),
   fraud_score_monotone.2.2.1 ⟨1, 0, 0, 0, 0, 0, 0⟩ 0 600 (by norm_num),
   fraud_score_monotone.2.2.2.1 ⟨1, 0, 0, 0, 0, 0, 0⟩ 0 2 (by norm_num),
   fraud_score_monotone.2.2.2.2 ⟨1, 0, 0, 0, 0, 0, 0⟩ 0 3 (by norm_num)⟩

/-! ### Indicators versus score (C10) -/

lemma indicatorList_empty_iff (d : CustomerData) :
    indicatorList d = [] ↔
      ¬ RETURN_RATE_THRESHOLD < d.return_rate ∧
      ¬ FREQUENT_RETURNER_THRESHOLD < d.recent_returns_30d ∧
      ¬ HIGH_VALUE_RETURN_THRESHOLD < d.avg_return_value ∧
      ¬ 0 < d.rapid_returns ∧
      ¬ 2 < d.suspicious_reason_count := by
  by_cases h1 : RETURN_RATE_THRESHOLD < d.return_rate <;>
    by_cases h2 : FREQUENT_RETURNER_THRESHOLD < d.recent_returns_30d <;>
    by_cases h3 : HIGH_VALUE_RETURN_THRESHOLD < d.avg_return_value <;>
    by_cases h4 : 0 < d.rapid_returns <;>
    by_cases h5 : 2 < d.suspicious_reason_count <;>
    simp [indicatorList, h1, h2, h3, h4, h5]

/-- C10: the returned indicator list is empty exactly when the returned
score is 0, for any input bundle (present or absent). -/
theorem indicators_empty_iff_score_zero (data : Option CustomerData) :
    (calculate_fraud_score data).2.1 = [] ↔ (calculate_fraud_score data).1 = 0 := by
  cases data with
  | none => simp [calculate_fraud_score]
  | some d =>
    show indicatorList d = [] ↔ min 100 (rawScore d) = 0
    rw [min_eq_right (rawScore_le_100 d), indicatorList_empty_iff]
    constructor
    · rintro ⟨h1, h2, h3, h4, h5⟩
      rw [rawScore, rateContribution, if_neg h1, freqContribution, if_neg h2,
        valueContribution, if_neg h3, rapidContribution, if_neg h4,
        reasonContribution, if_neg h5]
      norm_num
    · intro h0
      have n1 := rateContribution_nonneg d
      have n2 := freqContribution_nonneg d
      have n3 := valueContribution_nonneg d
      have n4 := rapidContribution_nonneg d
      have n5 := reasonContribution_nonneg d
      rw [rawScore] at h0
      refine ⟨?_, ?_, ?_, ?_, ?_⟩
      · intro h
        have := rateContribution_eq_of_lt d h
        linarith
      · intro h
        have := freqContribution_ge d h
        linarith
      · intro h
        have := valueContribution_gt d h
        linarith
      · intro h
        have := rapidContribution_ge d h
        linarith
      · intro h
        have := reasonContribution_ge d h
        linarith

/-! ### Rapid-return counting (C5) -/

/-- C5: the bundle's `rapid_returns` is the count of returns satisfying the
rapid predicate, and a return joined (by `order_id`, first match) to a
delivered order is rapid exactly when
`return_date ≤ delivery + 24 hours` (inclusive boundary). -/
theorem rapid_return_boundary :
    (∀ (now : ℤ) (orders : List Order) (rets : List Ret),
      (getCustomerAnalyticsData now orders rets).map (fun d => d.rapid_returns) =
        if orders.isEmpty then none else some (rets.countP (isRapid orders))) ∧
    (∀ (orders : List Order) (r : Ret) (o : Order),
      orders.find? (fun o2 => o2.id == r.order_id) = some o →
      o.status = OrderStatus.delivered →
      (isRapid orders r = true ↔
        r.return_date ≤ deliveryDate o + RAPID_RETURN_HOURS * secondsPerHour)) := by
  constructor
  · intro now orders rets
    rw [getCustomerAnalyticsData]
    by_cases h : orders.isEmpty
    · rw [if_pos h, if_pos h]; rfl
    · rw [if_neg h, if_neg h]; rfl
  · intro orders r o hfind hstat
    rw [isRapid, hfind]
    dsimp only
    rw [hstat]
    simp

/-- C5 witness: for an order delivered at time 1000 (no `updated_at`), a
return dated exactly 24h later (87400) is rapid and one dated 24h00m01s
later (87401) is not. -/
theorem rapid_return_boundary_witness :
    isRapid [⟨"o1", "c1", "c1@x", [], 0, 1000, none, OrderStatus.delivered, "a1"⟩]
        ⟨"r1", "o1", "c1", "c1@x", "p1", "P", ReturnReason.defective, 87400, 10, false⟩
      = true ∧
    isRapid [⟨"o1", "c1", "c1@x", [], 0, 1000, none, OrderStatus.delivered, "a1"⟩]
        ⟨"r2", "o1", "c1", "c1@x", "p1", "P", ReturnReason.defective, 87401, 10, false⟩
      = false := by
  constructor
  · exact (rapid_return_boundary.2
      [⟨"o1", "c1", "c1@x", [], 0, 1000, none, OrderStatus.delivered, "a1"⟩]
      ⟨"r1", "o1", "c1", "c1@x", "p1", "P", ReturnReason.defective, 87400, 10, false⟩
      ⟨"o1", "c1", "c1@x", [], 0, 1000, none, OrderStatus.delivered, "a1"⟩
      rfl rfl).mpr (by decide)
  · have h := rapid_return_boundary.2
      [⟨"o1", "c1", "c1@x", [], 0, 1000, none, OrderStatus.delivered, "a1"⟩]
      ⟨"r2", "o1", "c1", "c1@x", "p1", "P", ReturnReason.defective, 87401, 10, false⟩
      ⟨"o1", "c1", "c1@x", [], 0, 1000, none, OrderStatus.delivered, "a1"⟩ rfl rfl
    refine Bool.eq_false_iff.mpr (fun ht => ?_)
    have := h.mp ht
    revert this
    decide

/-! ### Fraud patterns (`detect_anomalies` family) -/

/-- The `evidence` dictionary of a `FraudPattern`, one shape per detector. -/
inductive Evidence where
  | massReturn (return_count_7d : ℕ) (total_refund_7d : ℚ) (customer_email : String)
  | fraudRing (shared_address : String) (customer_count : ℕ)
      (avg_return_rate : ℚ) (customer_emails : List String)
  | productAbuse (product_id : String) (return_rate : ℚ) (return_count : ℕ)
      (unique_customers : ℕ) (avg_refund : ℚ)
deriving DecidableEq, Repr

/-- `models.py` `FraudPattern` (the fields the detectors set; the free-text
`description` is elided, no claim depends on it). -/
structure Pattern where
  customer_id : String
  pattern_type : String
  severity : RiskLevel
  evidence : Evidence
deriving DecidableEq, Repr

/-- The 7-day window test of the mass-return pipeline
(`return_date >= seven_days_ago`). -/
def inLast7Days (now : ℤ) (r : Ret) : Bool :=
  decide (now - 7 * secondsPerDay ≤ r.return_date)

/-- One group of the mass-return `$group` stage, keyed on `customer_id`:
`$sum 1`, `$sum refund_amount`, `$first customer_email` over the documents
of the group, in pipeline order. -/
structure MassGroup where
  customer_id : String
  return_count : ℕ
  total_refund : ℚ
  customer_email : String
deriving DecidableEq, Repr

def massGroup (recent : List Ret) (cid : String) : MassGroup :=
  { customer_id := cid
    return_count := (recent.filter (fun r => r.customer_id == cid)).length
    total_refund :=
      ((recent.filter (fun r => r.customer_id == cid)).map
        (fun r => r.refund_amount)).sum
    customer_email :=
      (((recent.filter (fun r => r.customer_id == cid)).head?).map
        (fun r => r.customer_email)).getD "" }

/-- The aggregation pipeline of `_detect_mass_return_events` before the
cursor is drained: `$match` on the trailing 7 days, `$group` by
`customer_id`, `$match return_count >= 3`. -/
def massQualifying (now : ℤ) (rets : List Ret) : List MassGroup :=
  ((((rets.filter (inLast7Days now)).map (fun r => r.customer_id)).dedup).map
    (massGroup (rets.filter (inLast7Days now)))).filter
    (fun g => 3 ≤ g.return_count)

/-- `_detect_mass_return_events`: run the pipeline, drain at most 100
aggregation results (`.to_list(100)`), emit one HIGH pattern per returned
group. -/
def detect_mass_return_events (now : ℤ) (rets : List Ret) : List Pattern :=
  ((massQualifying now rets).take 100).map
    (fun g =>
      { customer_id := g.customer_id
        pattern_type := "mass_return_event"
        severity := RiskLevel.high
        evidence := Evidence.massReturn g.return_count g.total_refund g.customer_email })

lemma filter_filter_key (now : ℤ) (rets : List Ret) (cid : String) :
    (rets.filter (inLast7Days now)).filter (fun r => r.customer_id == cid) =
      rets.filter (fun r => r.customer_id == cid && inLast7Days now r) := by
  induction rets with
  | nil => rfl
  | cons r rs ih =>
    by_cases hw : inLast7Days now r <;> by_cases hc : r.customer_id == cid <;>
      simp [List.filter_cons, hw, hc, ih]

lemma massGroup_count (now : ℤ) (rets : List Ret) (cid : String) :
    (massGroup (rets.filter (inLast7Days now)) cid).return_count =
      rets.countP (fun r => r.customer_id == cid && inLast7Days now r) := by
  show ((rets.filter (inLast7Days now)).filter (fun r => r.customer_id == cid)).length = _
  rw [filter_filter_key, List.countP_eq_length_filter]

lemma mem_massQualifying_iff (now : ℤ) (rets : List Ret) (cid : String) :
    (∃ g ∈ massQualifying now rets, g.customer_id = cid) ↔
      3 ≤ rets.countP (fun r => r.customer_id == cid && inLast7Days now r) := by
  constructor
  · rintro ⟨g, hg, hcid⟩
    obtain ⟨hgmap, hcount⟩ := List.mem_filter.mp hg
    obtain ⟨k, _hk, rfl⟩ := List.mem_map.mp hgmap
    have hkc : k = cid := hcid
    subst hkc
    have h3 : 3 ≤ (massGroup (rets.filter (inLast7Days now)) k).return_count :=
      of_decide_eq_true hcount
    rwa [massGroup_count] at h3
  · intro h3
    have hpos : 0 < rets.countP (fun r => r.customer_id == cid && inLast7Days now r) := by
      omega
    obtain ⟨r, hr, hpr⟩ := List.countP_pos_iff.mp hpos
    obtain ⟨hrc, hrw⟩ := Bool.and_eq_true_iff.mp hpr
    refine ⟨massGroup (rets.filter (inLast7Days now)) cid,
      List.mem_filter.mpr ⟨List.mem_map.mpr ⟨cid, ?_, rfl⟩, ?_⟩, rfl⟩
    · exact List.mem_dedup.mpr (List.mem_map.mpr
        ⟨r, List.mem_filter.mpr ⟨hr, hrw⟩, beq_iff_eq.mp hrc⟩)
    · exact decide_eq_true (by rwa [massGroup_count])

/-- C6 (amended for the `.to_list(100)` result cap): a pattern for
customer `cid` is emitted only if `cid` has at least 3 returns dated
within the trailing 7 days; when at most 100 groups survive the pipeline
(the cursor cap is not binding) the converse also holds; and every emitted
pattern has severity HIGH and carries the 7-day count, the 7-day refund
total and the (first) customer email as evidence. -/
theorem mass_return_fires_iff (now : ℤ) (rets : List Ret) (cid : String) :
    ((∃ p ∈ detect_mass_return_events now rets, p.customer_id = cid) →
      3 ≤ rets.countP (fun r => r.customer_id == cid && inLast7Days now r)) ∧
    ((massQualifying now rets).length ≤ 100 →
      ((∃ p ∈ detect_mass_return_events now rets, p.customer_id = cid) ↔
        3 ≤ rets.countP (fun r => r.customer_id == cid && inLast7Days now r))) ∧
    (∀ p ∈ detect_mass_return_events now rets,
      p.severity = RiskLevel.high ∧
      p.pattern_type = "mass_return_event" ∧
      p.evidence = Evidence.massReturn
        (rets.countP (fun r => r.customer_id == p.customer_id && inLast7Days now r))
        ((rets.filter (fun r => r.customer_id == p.customer_id && inLast7Days now r)).map
          (fun r => r.refund_amount)).sum
        (((rets.filter (fun r => r.customer_id == p.customer_id && inLast7Days now r)).head?.map
          (fun r => r.customer_email)).getD "")) := by
  have honly : (∃ p ∈ detect_mass_return_events now rets, p.customer_id = cid) →
      3 ≤ rets.countP (fun r => r.customer_id == cid && inLast7Days now r) := by
    rintro ⟨p, hp, hcid⟩
    obtain ⟨g, hgtake, rfl⟩ := List.mem_map.mp hp
    have hg : g ∈ massQualifying now rets := List.take_subset _ _ hgtake
    exact (mem_massQualifying_iff now rets cid).mp ⟨g, hg, hcid⟩
  refine ⟨honly, fun hlen => ⟨honly, fun h3 => ?_⟩, fun p hp => ?_⟩
  · obtain ⟨g, hg, hgc⟩ := (mem_massQualifying_iff now rets cid).mpr h3
    refine ⟨_, List.mem_map.mpr ⟨g, ?_, rfl⟩, hgc⟩
    rw [List.take_of_length_le hlen]
    exact hg
  · obtain ⟨g, hgtake, rfl⟩ := List.mem_map.mp hp
    have hg : g ∈ massQualifying now rets := List.take_subset _ _ hgtake
    obtain ⟨hgmap, _hcount⟩ := List.mem_filter.mp hg
    obtain ⟨k, _hk, rfl⟩ := List.mem_map.mp hgmap
    refine ⟨rfl, rfl, ?_⟩
    show Evidence.massReturn
        (massGroup (rets.filter (inLast7Days now)) k).return_count
        (massGroup (rets.filter (inLast7Days now)) k).total_refund
        (massGroup (rets.filter (inLast7Days now)) k).customer_email = _
    rw [massGroup_count]
    show Evidence.massReturn _
        (List.sum (List.map (fun r => r.refund_amount)
          ((rets.filter (inLast7Days now)).filter (fun r => r.customer_id == k))))
        (Option.getD (Option.map (fun r => r.customer_email)
          (List.head? ((rets.filter (inLast7Days now)).filter
            (fun r => r.customer_id == k)))) "") = _
    rw [filter_filter_key]
    rfl

/-- A concrete returns collection at `now = 0`: customer `c1` has 3 returns
inside the 7-day window, customer `c2` has exactly 2. -/
def massReturnScenario : List Ret :=
  [⟨"r1", "o1", "c1", "c1@x", "p1", "P1", ReturnReason.defective, 0, 10, false⟩,
   ⟨"r2", "o2", "c1", "c1@x", "p1", "P1", ReturnReason.defective, -100, 10, false⟩,
   ⟨"r3", "o3", "c1", "c1@x", "p1", "P1", ReturnReason.defective, -200, 10, false⟩,
   ⟨"r4", "o4", "c2", "c2@x", "p1", "P1", ReturnReason.defective, 0, 10, false⟩,
   ⟨"r5", "o5", "c2", "c2@x", "p1", "P1", ReturnReason.defective, -100, 10, false⟩]

/-- C6 witness: on `massReturnScenario`, a pattern is emitted for `c1`
(3 in-window returns), none for `c2` (exactly 2), and every emitted
pattern has severity HIGH. -/
theorem mass_return_fires_iff_witness :
    (∃ p ∈ detect_mass_return_events 0 massReturnScenario, p.customer_id = "c1") ∧
    (¬ ∃ p ∈ detect_mass_return_events 0 massReturnScenario, p.customer_id = "c2") ∧
    (∀ p ∈ detect_mass_return_events 0 massReturnScenario,
      p.severity = RiskLevel.high) := by
  refine ⟨((mass_return_fires_iff 0 massReturnScenario "c1").2.1 (by decide)).mpr
      (by decide),
    fun hex => ?_, fun p hp => ?_⟩
  · have h2 := (mass_return_fires_iff 0 massReturnScenario "c2").1 hex
    revert h2
    decide
  · exact ((mass_return_fires_iff 0 massReturnScenario p.customer_id).2.2 p hp).1

/-- 101 customers (`c0` … `c100`), each with 3 in-window returns at
`now = 0`: more qualifying groups than the `.to_list(100)` cursor cap. -/
def massCapScenario : List Ret :=
  (List.range 101).flatMap (fun i =>
    [⟨"a" ++ toString i, "o", "c" ++ toString i, "e", "p", "P",
      ReturnReason.defective, 0, 1, false⟩,
     ⟨"b" ++ toString i, "o", "c" ++ toString i, "e", "p", "P",
      ReturnReason.defective, 0, 1, false⟩,
     ⟨"d" ++ toString i, "o", "c" ++ toString i, "e", "p", "P",
      ReturnReason.defective, 0, 1, false⟩])

set_option maxRecDepth 1000000 in
/-- C6 counterexample to the uncapped claim: customer `c100` has 3 returns
within the trailing 7 days, yet the detector — which drains at most 100
aggregation results — emits no pattern for `c100`. -/
theorem mass_return_cap_counterexample :
    3 ≤ massCapScenario.countP
        (fun r => r.customer_id == "c100" && inLast7Days 0 r) ∧
    ¬ ∃ p ∈ detect_mass_return_events 0 massCapScenario,
        p.customer_id = "c100" := by
  constructor
  · decide
  · rintro ⟨p, hp, hcid⟩
    obtain ⟨g, hgtake, rfl⟩ := List.mem_map.mp hp
    have hcg : g.customer_id = "c100" := hcid
    have hmem : g.customer_id ∈
        ((massQualifying 0 massCapScenario).take 100).map
          (fun g => g.customer_id) :=
      List.mem_map_of_mem _ hgtake
    rw [hcg] at hmem
    revert hmem
    decide

/-! ### Product-return abuse (C7) -/

/-- One group of the product-abuse `$group` stage, keyed on `product_id`:
`$sum 1`, `$first product_name`, `$addToSet customer_id`, `$avg refund`. -/
structure ProductGroup where
  product_id : String
  return_count : ℕ
  product_name : String
  customers : List String
  avg_refund : ℚ
deriving DecidableEq, Repr

def productGroup (rets : List Ret) (pid : String) : ProductGroup :=
  { product_id := pid
    return_count := (rets.filter (fun r => r.product_id == pid)).length
    product_name :=
      (((rets.filter (fun r => r.product_id == pid)).head?).map
        (fun r => r.product_name)).getD ""
    customers := ((rets.filter (fun r => r.product_id == pid)).map
      (fun r => r.customer_id)).dedup
    avg_refund :=
      ((rets.filter (fun r => r.product_id == pid)).map
        (fun r => r.refund_amount)).sum /
        ((rets.filter (fun r => r.product_id == pid)).length : ℚ) }

/-- `count_documents({"items.product_id": pid})`: the number of order
documents with at least one line item for the product (each matching order
document is counted once). -/
def ordersContainingProduct (orders : List Order) (pid : String) : ℕ :=
  orders.countP (fun o => o.items.any (fun it => it.product_id == pid))

/-- The per-product return rate of `_detect_product_return_abuse`:
group return count over `ordersContainingProduct`, with the zero
denominator pre-checked and substituted with 0. -/
def productReturnRate (orders : List Order) (rets : List Ret) (pid : String) : ℚ :=
  if 0 < ordersContainingProduct orders pid then
    ((rets.countP (fun r => r.product_id == pid)) : ℚ) /
      (ordersContainingProduct orders pid : ℚ)
  else 0

/-- The `return_rate` local of `_detect_product_return_abuse` for one group
(zero denominator pre-checked and substituted with 0, as in the source). -/
def groupRate (orders : List Order) (g : ProductGroup) : ℚ :=
  if 0 < ordersContainingProduct orders g.product_id then
    (g.return_count : ℚ) / (ordersContainingProduct orders g.product_id : ℚ)
  else 0

/-- The aggregation pipeline of `_detect_product_return_abuse` before the
cursor is drained: `$group` by `product_id`, `$match return_count >= 5`. -/
def productQualifying (rets : List Ret) : List ProductGroup :=
  (((rets.map (fun r => r.product_id)).dedup).map (productGroup rets)).filter
    (fun g => 5 ≤ g.return_count)

/-- `_detect_product_return_abuse`: run the pipeline, drain at most 100
aggregation results (`.to_list(100)`), and for each returned group compute
the return rate against `ordersContainingProduct`; emit one HIGH pattern
(subject "SYSTEM") when the rate exceeds 0.40. -/
def detect_product_return_abuse (orders : List Order) (rets : List Ret) :
    List Pattern :=
  ((productQualifying rets).take 100).filterMap
    (fun g =>
      if 2 / 5 < groupRate orders g then
        some { customer_id := "SYSTEM"
               pattern_type := "product_return_abuse"
               severity := RiskLevel.high
               evidence := Evidence.productAbuse g.product_id (groupRate orders g)
                 g.return_count g.customers.length g.avg_refund }
      else none)

lemma productGroup_count (rets : List Ret) (pid : String) :
    (productGroup rets pid).return_count =
      rets.countP (fun r => r.product_id == pid) := by
  show (rets.filter (fun r => r.product_id == pid)).length = _
  rw [List.countP_eq_length_filter]

lemma groupRate_eq (orders : List Order) (rets : List Ret) (pid : String) :
    groupRate orders (productGroup rets pid) = productReturnRate orders rets pid := by
  show (if 0 < ordersContainingProduct orders pid then
      ((productGroup rets pid).return_count : ℚ) /
        (ordersContainingProduct orders pid : ℚ)
    else 0) = _
  rw [productGroup_count]
  rfl

/-- C7 (amended for the `.to_list(100)` result cap): a pattern carrying
product `pid` in its evidence is emitted only if `pid` has at least 5
returns and its return rate — group count divided by the number of orders
containing the product among their line items — exceeds 0.40; when at most
100 groups reach the `return_count >= 5` stage (the cursor cap is not
binding) the converse also holds. -/
theorem product_abuse_fires_iff (orders : List Order) (rets : List Ret)
    (pid : String) :
    ((∃ p ∈ detect_product_return_abuse orders rets,
        ∃ rr cnt uc ar, p.evidence = Evidence.productAbuse pid rr cnt uc ar) →
      (5 ≤ rets.countP (fun r => r.product_id == pid) ∧
        2 / 5 < productReturnRate orders rets pid)) ∧
    ((productQualifying rets).length ≤ 100 →
      ((∃ p ∈ detect_product_return_abuse orders rets,
          ∃ rr cnt uc ar, p.evidence = Evidence.productAbuse pid rr cnt uc ar) ↔
        (5 ≤ rets.countP (fun r => r.product_id == pid) ∧
          2 / 5 < productReturnRate orders rets pid))) := by
  have honly : (∃ p ∈ detect_product_return_abuse orders rets,
      ∃ rr cnt uc ar, p.evidence = Evidence.productAbuse pid rr cnt uc ar) →
      (5 ≤ rets.countP (fun r => r.product_id == pid) ∧
        2 / 5 < productReturnRate orders rets pid) := by
    rintro ⟨p, hp, rr, cnt, uc, ar, hev⟩
    obtain ⟨g, hgtake, hout⟩ := List.mem_filterMap.mp hp
    have hg : g ∈ productQualifying rets := List.take_subset _ _ hgtake
    obtain ⟨hgmap, hcount⟩ := List.mem_filter.mp hg
    obtain ⟨k, _hk, rfl⟩ := List.mem_map.mp hgmap
    by_cases hrate : (2 : ℚ) / 5 < groupRate orders (productGroup rets k)
    · rw [if_pos hrate] at hout
      obtain rfl : _ = p := Option.some_inj.mp hout
      have hev2 : Evidence.productAbuse k (groupRate orders (productGroup rets k))
          (productGroup rets k).return_count (productGroup rets k).customers.length
          (productGroup rets k).avg_refund =
          Evidence.productAbuse pid rr cnt uc ar := hev
      have hk : k = pid := by
        injection hev2
      subst hk
      have h5 : 5 ≤ (productGroup rets k).return_count := of_decide_eq_true hcount
      rw [productGroup_count] at h5
      rw [groupRate_eq] at hrate
      exact ⟨h5, hrate⟩
    · rw [if_neg hrate] at hout
      exact absurd hout (by simp)
  refine ⟨honly, fun hlen => ⟨honly, ?_⟩⟩
  rintro ⟨h5, hrate⟩
  have hpos : 0 < rets.countP (fun r => r.product_id == pid) := by omega
  obtain ⟨r, hr, hpr⟩ := List.countP_pos_iff.mp hpos
  have hkeys : pid ∈ (rets.map (fun r => r.product_id)).dedup :=
    List.mem_dedup.mpr (List.mem_map.mpr ⟨r, hr, beq_iff_eq.mp hpr⟩)
  have hc : (2 : ℚ) / 5 < groupRate orders (productGroup rets pid) := by
    rw [groupRate_eq]
    exact hrate
  refine ⟨{ customer_id := "SYSTEM"
            pattern_type := "product_return_abuse"
            severity := RiskLevel.high
            evidence := Evidence.productAbuse pid
              (groupRate orders (productGroup rets pid))
              (productGroup rets pid).return_count
              (productGroup rets pid).customers.length
              (productGroup rets pid).avg_refund },
    List.mem_filterMap.mpr ⟨productGroup rets pid, ?_, ?_⟩,
    _, _, _, _, rfl⟩
  · rw [List.take_of_length_le hlen]
    exact List.mem_filter.mpr ⟨List.mem_map.mpr ⟨pid, hkeys, rfl⟩,
      decide_eq_true (by rwa [productGroup_count])⟩
  · rw [if_pos hc]
    rfl

/-- Five returns of `p1` and one of `p2`; four orders contain `p1`,
so `p1`'s return rate is 5/4 > 0.40. -/
def productAbuseScenario : List Ret :=
  [⟨"R1", "O1", "c1", "e", "p1", "P", ReturnReason.defective, 0, 10, false⟩,
   ⟨"R2", "O2", "c2", "e", "p1", "P", ReturnReason.defective, 0, 10, false⟩,
   ⟨"R3", "O3", "c3", "e", "p1", "P", ReturnReason.defective, 0, 10, false⟩,
   ⟨"R4", "O4", "c4", "e", "p1", "P", ReturnReason.defective, 0, 10, false⟩,
   ⟨"R5", "O1", "c1", "e", "p1", "P", ReturnReason.defective, 0, 10, false⟩,
   ⟨"R6", "O2", "c2", "e", "p2", "P2", ReturnReason.defective, 0, 10, false⟩]

def productAbuseOrders : List Order :=
  [⟨"O1", "c1", "e", [⟨"p1"⟩], 10, 0, none, OrderStatus.delivered, "a"⟩,
   ⟨"O2", "c2", "e", [⟨"p1"⟩], 10, 0, none, OrderStatus.delivered, "a"⟩,
   ⟨"O3", "c3", "e", [⟨"p1"⟩], 10, 0, none, OrderStatus.delivered, "a"⟩,
   ⟨"O4", "c4", "e", [⟨"p1"⟩], 10, 0, none, OrderStatus.delivered, "a"⟩]

/-- C7 witness: with the cap not binding, `p1` (5 returns, rate 5/4) gets
a pattern and `p2` (1 return) does not. -/
theorem product_abuse_fires_iff_witness :
    (∃ p ∈ detect_product_return_abuse productAbuseOrders productAbuseScenario,
        ∃ rr cnt uc ar, p.evidence = Evidence.productAbuse "p1" rr cnt uc ar) ∧
    (¬ ∃ p ∈ detect_product_return_abuse productAbuseOrders productAbuseScenario,
        ∃ rr cnt uc ar, p.evidence = Evidence.productAbuse "p2" rr cnt uc ar) := by
  constructor
  · refine ((product_abuse_fires_iff productAbuseOrders productAbuseScenario
      "p1").2 (by decide)).mpr ⟨by decide, ?_⟩
    have h1 : ordersContainingProduct productAbuseOrders "p1" = 4 := by decide
    have h2 : productAbuseScenario.countP (fun r => r.product_id == "p1") = 5 := by
      decide
    rw [productReturnRate, h1, h2]
    norm_num
  · intro hex
    have h := (product_abuse_fires_iff productAbuseOrders productAbuseScenario
      "p2").1 hex
    have h5 := h.1
    revert h5
    decide

/-- 101 products (`p0` … `p100`), each with 5 returns and exactly one
order containing it (rate 5/1 > 0.40): more qualifying groups than the
`.to_list(100)` cursor cap. -/
def productCapOrders : List Order :=
  (List.range 101).map (fun i =>
    ⟨"O" ++ toString i, "c", "e", [⟨"p" ++ toString i⟩], 10, 0, none,
     OrderStatus.delivered, "ad"⟩)

def productCapRets : List Ret :=
  (List.range 101).flatMap (fun i =>
    (List.range 5).map (fun j =>
      ⟨"R" ++ toString i ++ "x" ++ toString j, "O" ++ toString i, "c", "e",
       "p" ++ toString i, "P", ReturnReason.defective, 0, 1, false⟩))

set_option maxRecDepth 1000000 in
/-- C7 counterexample to the uncapped claim: product `p100` has 5 returns
and return rate 5/1 > 0.40, yet the detector — which drains at most 100
aggregation results — emits no pattern for `p100`. -/
theorem product_abuse_cap_counterexample :
    (5 ≤ productCapRets.countP (fun r => r.product_id == "p100") ∧
      2 / 5 < productReturnRate productCapOrders productCapRets "p100") ∧
    ¬ ∃ p ∈ detect_product_return_abuse productCapOrders productCapRets,
        ∃ rr cnt uc ar, p.evidence = Evidence.productAbuse "p100" rr cnt uc ar := by
  refine ⟨⟨by decide, ?_⟩, ?_⟩
  · have h1 : ordersContainingProduct productCapOrders "p100" = 1 := by decide
    have h2 : productCapRets.countP (fun r => r.product_id == "p100") = 5 := by
      decide
    rw [productReturnRate, h1, h2]
    norm_num
  · rintro ⟨p, hp, rr, cnt, uc, ar, hev⟩
    obtain ⟨g, hgtake, hout⟩ := List.mem_filterMap.mp hp
    by_cases hrate : (2 : ℚ) / 5 < groupRate productCapOrders g
    · rw [if_pos hrate] at hout
      obtain rfl : _ = p := Option.some_inj.mp hout
      have hev2 : Evidence.productAbuse g.product_id (groupRate productCapOrders g)
          g.return_count g.customers.length g.avg_refund =
          Evidence.productAbuse "p100" rr cnt uc ar := hev
      have hpid : g.product_id = "p100" := by
        injection hev2
      have hmem : g.product_id ∈
          ((productQualifying productCapRets).take 100).map
            (fun g => g.product_id) :=
        List.mem_map_of_mem _ hgtake
      rw [hpid] at hmem
      revert hmem
      decide
    · rw [if_neg hrate] at hout
      exact absurd hout (by simp)

/-! ### Trend analysis (C8, `get_trend_analysis`) -/

/-- One bucket of the daily-trend `$group` stage of `get_trend_analysis`
(grouped by calendar day, sorted by day). -/
structure DayBucket where
  day : String
  return_count : ℕ
  fraud_count : ℕ
  total_refund : ℚ
deriving DecidableEq, Repr

/-- The trend label of `get_trend_analysis`:
`"increasing" if len(counts) > 1 and counts[-1] > counts[0] else "stable"`. -/
def trendLabel (counts : List ℕ) : String :=
  if 1 < counts.length ∧ counts.headD 0 < counts.getLastD 0 then "increasing"
  else "stable"

/-- The `return_trend` field of `get_trend_analysis` as a function of the
sorted daily buckets. -/
def returnTrendOf (daily_trends : List DayBucket) : String :=
  trendLabel (daily_trends.map (fun b => b.return_count))

/-- The `fraud_trend` field of `get_trend_analysis`. -/
def fraudTrendOf (daily_trends : List DayBucket) : String :=
  trendLabel (daily_trends.map (fun b => b.fraud_count))

lemma headD_eq_getLastD_of_short (counts : List ℕ) (h : counts.length ≤ 1) :
    counts.headD 0 = counts.getLastD 0 := by
  match counts with
  | [] => rfl
  | [a] => rfl
  | a :: b :: t => simp at h

/-- C8: the trend label is "increasing" exactly when the last bucket's
count strictly exceeds the first bucket's count, and "stable" in every
other case (equal counts, at most one bucket included); the same holds for
the return and fraud trends of `get_trend_analysis`. -/
theorem trend_label_iff (counts : List ℕ) :
    (trendLabel counts = "increasing" ↔ counts.headD 0 < counts.getLastD 0) ∧
    (trendLabel counts = "increasing" ∨ trendLabel counts = "stable") ∧
    (∀ trends : List DayBucket,
      returnTrendOf trends = "increasing" ↔
        (trends.map (fun b => b.return_count)).headD 0 <
          (trends.map (fun b => b.return_count)).getLastD 0) ∧
    (∀ trends : List DayBucket,
      fraudTrendOf trends = "increasing" ↔
        (trends.map (fun b => b.fraud_count)).headD 0 <
          (trends.map (fun b => b.fraud_count)).getLastD 0) := by
  have key : ∀ cs : List ℕ,
      trendLabel cs = "increasing" ↔ cs.headD 0 < cs.getLastD 0 := by
    intro cs
    rw [trendLabel]
    split
    · next h => exact iff_of_true rfl h.2
    · next h =>
      constructor
      · intro hs
        exact absurd hs (by decide)
      · intro hlt
        exfalso
        rcases Nat.lt_or_ge 1 cs.length with hlen | hlen
        · exact h ⟨hlen, hlt⟩
        · rw [headD_eq_getLastD_of_short cs hlen] at hlt
          omega
  refine ⟨key counts, ?_, fun trends => key _, fun trends => key _⟩
  rw [trendLabel]
  split
  · left; rfl
  · right; rfl

/-! ### Fraud rings and division safety (C9) -/

/-- One group of the fraud-ring `$group` stage, keyed on
`shipping_address`: `$addToSet customer_id`, `$addToSet customer_email`,
`$sum 1`. -/
structure AddrGroup where
  address : String
  customers : List String
  customer_emails : List String
  order_count : ℕ
deriving DecidableEq, Repr

def addrGroup (orders : List Order) (addr : String) : AddrGroup :=
  { address := addr
    customers := ((orders.filter (fun o => o.shipping_address == addr)).map
      (fun o => o.customer_id)).dedup
    customer_emails := ((orders.filter (fun o => o.shipping_address == addr)).map
      (fun o => o.customer_email)).dedup
    order_count := (orders.filter (fun o => o.shipping_address == addr)).length }

/-- The per-customer `return_rate` of the fraud-ring loop:
`customer_returns / customer_orders if customer_orders > 0 else 0`. -/
def customerReturnRate (orders : List Order) (rets : List Ret) (cid : String) : ℚ :=
  if 0 < orders.countP (fun o => o.customer_id == cid) then
    ((rets.countP (fun r => r.customer_id == cid)) : ℚ) /
      (orders.countP (fun o => o.customer_id == cid) : ℚ)
  else 0

/-- `sum(return_counts) / len(return_counts)` — the one unguarded division
of the engine; the Python `ZeroDivisionError` on an empty list is modelled
as `none`. -/
def avgChecked (xs : List ℚ) : Option ℚ :=
  if xs.length = 0 then none else some (xs.sum / (xs.length : ℚ))

/-- The body of the fraud-ring loop for one surviving address group:
average the per-customer return rates and emit one CRITICAL pattern when
the average exceeds 0.20 (`customer_ids[0]` is the nominal subject). -/
def ringPatterns (orders : List Order) (rets : List Ret) (g : AddrGroup) :
    Option (List Pattern) :=
  match avgChecked (g.customers.map (customerReturnRate orders rets)) with
  | none => none
  | some avg =>
    if 1 / 5 < avg then
      some [{ customer_id := g.customers.headD ""
              pattern_type := "potential_fraud_ring"
              severity := RiskLevel.critical
              evidence := Evidence.fraudRing g.address g.customers.length avg
                g.customer_emails }]
    else some []

/-- Sequencing of the per-group loop: the whole detector fails (raises) if
any group's body fails. -/
def collectRings (f : AddrGroup → Option (List Pattern)) :
    List AddrGroup → Option (List Pattern)
  | [] => some []
  | g :: gs =>
    match f g, collectRings f gs with
    | some ps, some rest => some (ps ++ rest)
    | _, _ => none

/-- `_detect_potential_fraud_rings`: group orders by shipping address, keep
groups with 3+ distinct customers, run the per-group body over them. -/
def detect_potential_fraud_rings (orders : List Order) (rets : List Ret) :
    Option (List Pattern) :=
  let keys := (orders.map (fun o => o.shipping_address)).dedup
  collectRings (ringPatterns orders rets)
    ((keys.map (addrGroup orders)).filter (fun g => 3 ≤ g.customers.length))

/-! Guarded divisions of `get_dashboard_metrics` (`AnalyticsEngine`). -/

/-- `overall_return_rate = total_returns / total_orders if total_orders > 0 else 0`. -/
def overall_return_rate (total_returns total_orders : ℕ) : ℚ :=
  if 0 < total_orders then (total_returns : ℚ) / (total_orders : ℚ) else 0

/-- `fraud_detection_rate = fraud_suspected_returns / total_returns if total_returns > 0 else 0`. -/
def fraud_detection_rate (fraud_suspected total_returns : ℕ) : ℚ :=
  if 0 < total_returns then (fraud_suspected : ℚ) / (total_returns : ℚ) else 0

/-- `avg_processing_time = sum(ts) / len(ts) if processing_times else 0`. -/
def avg_processing_time (times : List ℚ) : ℚ :=
  if times.isEmpty then 0 else times.sum / (times.length : ℚ)

lemma avgChecked_of_ne_nil (xs : List ℚ) (h : xs ≠ []) :
    avgChecked xs = some (xs.sum / (xs.length : ℚ)) := by
  rw [avgChecked, if_neg]
  simpa using h

lemma ringPatterns_isSome (orders : List Order) (rets : List Ret)
    (g : AddrGroup) (h : g.customers ≠ []) :
    (ringPatterns orders rets g).isSome = true := by
  rw [ringPatterns, avgChecked_of_ne_nil _ (by simpa using h)]
  dsimp only
  split <;> rfl

lemma collectRings_isSome (f : AddrGroup → Option (List Pattern))
    (gs : List AddrGroup) (h : ∀ g ∈ gs, (f g).isSome = true) :
    (collectRings f gs).isSome = true := by
  induction gs with
  | nil => rfl
  | cons g gs ih =>
    have hg := h g (List.mem_cons_self g gs)
    have hrest := ih (fun g2 hg2 => h g2 (List.mem_cons_of_mem g hg2))
    obtain ⟨ps, hps⟩ := Option.isSome_iff_exists.mp hg
    obtain ⟨rest, hrest2⟩ := Option.isSome_iff_exists.mp hrest
    rw [collectRings, hps, hrest2]
    rfl

/-- C9: no division the engine performs can be a division by zero — the
fraud-ring detector's unguarded per-group average never sees an empty
list (its pipeline filter keeps only groups with 3+ distinct customers,
so the failure branch is unreachable), and every other division
(dashboard rates, processing-time mean, per-customer return rate) is
pre-checked and substituted with 0 on a zero denominator. -/
theorem no_division_by_zero :
    (∀ (orders : List Order) (rets : List Ret),
      (detect_potential_fraud_rings orders rets).isSome = true) ∧
    (∀ n : ℕ, overall_return_rate n 0 = 0) ∧
    (∀ n : ℕ, fraud_detection_rate n 0 = 0) ∧
    avg_processing_time [] = 0 ∧
    (∀ (orders : List Order) (rets : List Ret) (cid : String),
      orders.countP (fun o => o.customer_id == cid) = 0 →
      customerReturnRate orders rets cid = 0) := by
  refine ⟨?_, fun n => rfl, fun n => rfl, rfl, ?_⟩
  · intro orders rets
    apply collectRings_isSome
    intro g hg
    have h3 : 3 ≤ g.customers.length :=
      of_decide_eq_true (List.mem_filter.mp hg).2
    apply ringPatterns_isSome
    intro hnil
    rw [hnil] at h3
    simp at h3
  · intro orders rets cid h0
    rw [customerReturnRate, if_neg]
    omega

/-- C9 witness: the detector succeeds on a concrete store in which one
address is shared by three customers, and each guarded division yields 0
on a zero denominator. -/
theorem no_division_by_zero_witness :
    (detect_potential_fraud_rings
      [⟨"o1", "c1", "c1@x", [], 10, 0, none, OrderStatus.delivered, "addr1"⟩,
       ⟨"o2", "c2", "c2@x", [], 10, 0, none, OrderStatus.delivered, "addr1"⟩,
       ⟨"o3", "c3", "c3@x", [], 10, 0, none, OrderStatus.delivered, "addr1"⟩]
      []).isSome = true ∧
    overall_return_rate 7 0 = 0 ∧
    fraud_detection_rate 7 0 = 0 ∧
    avg_processing_time [] = 0 ∧
    customerReturnRate [] [] "c1" = 0 :=
  ⟨no_division_by_zero.1
      [⟨"o1", "c1", "c1@x", [], 10, 0, none, OrderStatus.delivered, "addr1"⟩,
       ⟨"o2", "c2", "c2@x", [], 10, 0, none, OrderStatus.delivered, "addr1"⟩,
       ⟨"o3", "c3", "c3@x", [], 10, 0, none, OrderStatus.delivered, "addr1"⟩] [],
   no_division_by_zero.2.1 7,
   no_division_by_zero.2.2.1 7,
   no_division_by_zero.2.2.2.1,
   no_division_by_zero.2.2.2.2 [] [] "c1" rfl⟩

end Analytics
